import Mathlib

/-!
Verification of the Dolphin document-parsing API server (`api_server.py`).

The development shallowly embeds the server's orchestration logic:

* the element-processing loop `process_elements_api` (layout traversal,
  reading-order assignment, figure/text split, batched recognition, final
  sort by reading order);
* the page-level and element-level pipelines `process_page_api` and
  `process_element_api` with their exception-to-HTTPException wrapping;
* the HTTP endpoints `parse_page`, `parse_element`, `upload_parse_page`,
  `upload_parse_element` and `health_check` with their try/except
  structure; and
* the auth gate `verify_api_key` together with the behaviour of the
  `fastapi.security.HTTPBearer` dependency it is resolved through.

External collaborators (the vision-language model `DOLPHIN.chat`, base64 and
PIL image decoding, `parse_layout_string`/`process_coordinates` from the
`utils` package, which are not part of this repository checkout) are
represented by oracles: per-element coordinate outcomes and crop sizes are
data carried by the layout list, and the model's chat calls are function
parameters returning `Except` to model Python exceptions.
-/

namespace Dolphin

/-- Outcome of `process_coordinates` plus the subsequent crop for one layout
element: the clamped crop's pixel count (`cropSize`, with `0` meaning the
crop is empty after clamping), the box mapped back to original-image
coordinates (`origBbox`), and an abstract identifier for the cropped image
(`cropId`). -/
structure CoordOutput where
  cropSize : Nat
  origBbox : List Int
  cropId : Nat
deriving DecidableEq

/-- One entry of the parsed layout list consumed by `process_elements_api`:
the semantic label from `parse_layout_string` and the outcome of coordinate
handling for this element (`none` models `process_coordinates` or the crop
conversion raising an exception). -/
structure LayoutElem where
  label : String
  coord : Option CoordOutput
deriving DecidableEq

/-- An entry of `text_table_elements`: a queued text/table crop awaiting
batched recognition. -/
structure TTElem where
  crop : Nat
  prompt : String
  label : String
  bbox : List Int
  reading_order : Nat
deriving DecidableEq

/-- An entry of `recognition_results`: label, original-image bbox, recognised
text (empty for figures) and the reading order assigned during traversal. -/
structure ResultElem where
  label : String
  bbox : List Int
  text : String
  reading_order : Nat
deriving DecidableEq

/-- The element-collection loop of `process_elements_api`: traverses the
layout, and for each element whose coordinate handling succeeds and whose
crop is non-empty, either emits a figure result directly or queues a
text/table element with a label-dependent prompt; the reading-order counter
is incremented after every element that does not raise, including empty-crop
skips, while an exception (`coord = none`) skips the element without
incrementing (`continue` fires before `reading_order += 1`). Returns
(`text_table_elements`, `figure_results`). -/
def collectElements : List LayoutElem → Nat → List TTElem × List ResultElem
  | [], _ => ([], [])
  | e :: rest, reading_order =>
    match e.coord with
    | none => collectElements rest reading_order
    | some c =>
      if 0 < c.cropSize then
        if e.label = "fig" then
          let p := collectElements rest (reading_order + 1)
          (p.1, { label := e.label, bbox := c.origBbox, text := "",
                  reading_order := reading_order } :: p.2)
        else
          let prompt := if e.label = "tab" then "Parse the table in the image."
                        else "Read text in the image."
          let p := collectElements rest (reading_order + 1)
          ({ crop := c.cropId, prompt := prompt, label := e.label,
             bbox := c.origBbox, reading_order := reading_order } :: p.1, p.2)
      else
        collectElements rest (reading_order + 1)

/-- Comparison key used by the final `recognition_results.sort`. -/
def readingOrderLe (a b : ResultElem) : Bool :=
  decide (a.reading_order ≤ b.reading_order)

/-- The final `recognition_results.sort(key=lambda x: x.get("reading_order", 0))`:
a stable sort by reading order (every entry carries the key). -/
def sortResults (l : List ResultElem) : List ResultElem :=
  l.mergeSort readingOrderLe

/-- The function `process_elements_api`: collects elements, then (if any text/table crops
were queued) performs one batched `model.chat` call — with the local
reassignment `max_batch_size = 1` overriding the caller-requested value —
zips the returned strings back onto the queued elements, merges with the
figure results and sorts by reading order. The second component records the
`max_batch_size` argument of the chat invocation (`none` when no batched
call happens); the first is the result list, or the exception message if the
batched chat call raises. -/
def process_elements_api
    (chat : List String → List Nat → Int → Except String (List String))
    (layout_results : List LayoutElem) (max_batch_size : Int) :
    Except String (List ResultElem) × Option Int :=
  let text_table_elements := (collectElements layout_results 0).1
  let figure_results := (collectElements layout_results 0).2
  if text_table_elements.isEmpty then
    (.ok (sortResults figure_results), none)
  else
    let crops_list := text_table_elements.map (fun e => e.crop)
    let prompts_list := text_table_elements.map (fun e => e.prompt)
    let mbs : Int := 1
    match chat prompts_list crops_list mbs with
    | .error e => (.error e, some mbs)
    | .ok batch_results =>
      let recognition_results := figure_results ++
        (batch_results.zip text_table_elements).map
          (fun p => { label := p.2.label, bbox := p.2.bbox,
                      text := p.1.trim, reading_order := p.2.reading_order })
      (.ok (sortResults recognition_results), some mbs)

/-- Whether this element's coordinate handling succeeds (no exception). -/
def coordOk (e : LayoutElem) : Bool := e.coord.isSome

/-- Number of layout elements whose coordinate handling succeeds; this is
exactly the amount by which the reading-order counter advances. -/
def nonFailCount (l : List LayoutElem) : Nat := (l.filter coordOk).length

/-- Whether the element survives clamping with a non-empty crop. -/
def isRetained (e : LayoutElem) : Bool :=
  match e.coord with
  | some c => decide (0 < c.cropSize)
  | none => false

/-- Retained figure element. -/
def retainedFig (e : LayoutElem) : Bool := isRetained e && (e.label == "fig")

/-- Retained non-figure (text/table) element: these are the queued crops. -/
def retainedNonFig (e : LayoutElem) : Bool := isRetained e && !(e.label == "fig")

/-- Number of figure results emitted for a layout. -/
def retainedFigCount (l : List LayoutElem) : Nat := (l.filter retainedFig).length

/-- Number of non-empty text/table crops queued for a layout. -/
def retainedNonFigCount (l : List LayoutElem) : Nat :=
  (l.filter retainedNonFig).length

/-- The queue of text/table elements produced for a layout. -/
def queueOf (layout : List LayoutElem) : List TTElem := (collectElements layout 0).1

/-- The figure results produced for a layout. -/
def figsOf (layout : List LayoutElem) : List ResultElem := (collectElements layout 0).2

/-- The result list in original layout order: a direct traversal that assigns
each retained element its reading-order value and pairs each retained
non-figure element with the next batched recognition string. Stating that
the sorted output of `process_elements_api` equals this list expresses that
the final sort restores the original layout order. -/
def inOrderResults : List LayoutElem → List String → Nat → List ResultElem
  | [], _, _ => []
  | e :: rest, batch, reading_order =>
    match e.coord with
    | none => inOrderResults rest batch reading_order
    | some c =>
      if 0 < c.cropSize then
        if e.label = "fig" then
          { label := e.label, bbox := c.origBbox, text := "",
            reading_order := reading_order } :: inOrderResults rest batch (reading_order + 1)
        else
          match batch with
          | [] => inOrderResults rest [] (reading_order + 1)
          | t :: bs =>
            { label := e.label, bbox := c.origBbox, text := t.trim,
              reading_order := reading_order } :: inOrderResults rest bs (reading_order + 1)
      else
        inOrderResults rest batch (reading_order + 1)

/-! ### Unfolding lemmas for the traversal -/

theorem collectElements_nil (ro : Nat) : collectElements [] ro = ([], []) := rfl

theorem collectElements_cons_none {e : LayoutElem} (h : e.coord = none)
    (rest : List LayoutElem) (ro : Nat) :
    collectElements (e :: rest) ro = collectElements rest ro := by
  simp [collectElements, h]

theorem collectElements_cons_skip {e : LayoutElem} {c : CoordOutput}
    (h : e.coord = some c) (hz : ¬ 0 < c.cropSize)
    (rest : List LayoutElem) (ro : Nat) :
    collectElements (e :: rest) ro = collectElements rest (ro + 1) := by
  simp [collectElements, h, hz]

theorem collectElements_cons_fig {e : LayoutElem} {c : CoordOutput}
    (h : e.coord = some c) (hz : 0 < c.cropSize) (hf : e.label = "fig")
    (rest : List LayoutElem) (ro : Nat) :
    collectElements (e :: rest) ro =
      ((collectElements rest (ro + 1)).1,
       { label := e.label, bbox := c.origBbox, text := "",
         reading_order := ro } :: (collectElements rest (ro + 1)).2) := by
  simp [collectElements, h, hz, hf]

theorem collectElements_cons_tt {e : LayoutElem} {c : CoordOutput}
    (h : e.coord = some c) (hz : 0 < c.cropSize) (hf : ¬ e.label = "fig")
    (rest : List LayoutElem) (ro : Nat) :
    collectElements (e :: rest) ro =
      ({ crop := c.cropId,
         prompt := if e.label = "tab" then "Parse the table in the image."
                   else "Read text in the image.",
         label := e.label, bbox := c.origBbox,
         reading_order := ro } :: (collectElements rest (ro + 1)).1,
       (collectElements rest (ro + 1)).2) := by
  simp [collectElements, h, hz, hf]

theorem inOrderResults_nil (batch : List String) (ro : Nat) :
    inOrderResults [] batch ro = [] := rfl

theorem inOrderResults_cons_none {e : LayoutElem} (h : e.coord = none)
    (rest : List LayoutElem) (batch : List String) (ro : Nat) :
    inOrderResults (e :: rest) batch ro = inOrderResults rest batch ro := by
  simp [inOrderResults, h]

theorem inOrderResults_cons_skip {e : LayoutElem} {c : CoordOutput}
    (h : e.coord = some c) (hz : ¬ 0 < c.cropSize)
    (rest : List LayoutElem) (batch : List String) (ro : Nat) :
    inOrderResults (e :: rest) batch ro = inOrderResults rest batch (ro + 1) := by
  simp [inOrderResults, h, hz]

theorem inOrderResults_cons_fig {e : LayoutElem} {c : CoordOutput}
    (h : e.coord = some c) (hz : 0 < c.cropSize) (hf : e.label = "fig")
    (rest : List LayoutElem) (batch : List String) (ro : Nat) :
    inOrderResults (e :: rest) batch ro =
      { label := e.label, bbox := c.origBbox, text := "",
        reading_order := ro } :: inOrderResults rest batch (ro + 1) := by
  simp [inOrderResults, h, hz, hf]

theorem inOrderResults_cons_tt_nil {e : LayoutElem} {c : CoordOutput}
    (h : e.coord = some c) (hz : 0 < c.cropSize) (hf : ¬ e.label = "fig")
    (rest : List LayoutElem) (ro : Nat) :
    inOrderResults (e :: rest) [] ro = inOrderResults rest [] (ro + 1) := by
  simp [inOrderResults, h, hz, hf]

theorem inOrderResults_cons_tt {e : LayoutElem} {c : CoordOutput}
    (h : e.coord = some c) (hz : 0 < c.cropSize) (hf : ¬ e.label = "fig")
    (rest : List LayoutElem) (t : String) (bs : List String) (ro : Nat) :
    inOrderResults (e :: rest) (t :: bs) ro =
      { label := e.label, bbox := c.origBbox, text := t.trim,
        reading_order := ro } :: inOrderResults rest bs (ro + 1) := by
  simp [inOrderResults, h, hz, hf]

/-! ### Counting lemmas -/

theorem nonFailCount_nil : nonFailCount [] = 0 := rfl

theorem nonFailCount_cons (e : LayoutElem) (l : List LayoutElem) :
    nonFailCount (e :: l) =
      (if e.coord.isSome then 1 else 0) + nonFailCount l := by
  by_cases h : e.coord.isSome <;>
    simp [nonFailCount, coordOk, List.filter_cons, h, Nat.add_comm]

theorem retainedNonFigCount_cons (e : LayoutElem) (l : List LayoutElem) :
    retainedNonFigCount (e :: l) =
      (if retainedNonFig e then 1 else 0) + retainedNonFigCount l := by
  by_cases h : retainedNonFig e <;>
    simp [retainedNonFigCount, List.filter_cons, h, Nat.add_comm]

theorem retainedFigCount_cons (e : LayoutElem) (l : List LayoutElem) :
    retainedFigCount (e :: l) =
      (if retainedFig e then 1 else 0) + retainedFigCount l := by
  by_cases h : retainedFig e <;>
    simp [retainedFigCount, List.filter_cons, h, Nat.add_comm]

theorem collectElements_fst_length (l : List LayoutElem) (ro : Nat) :
    (collectElements l ro).1.length = retainedNonFigCount l := by
  induction l generalizing ro with
  | nil => simp [collectElements_nil, retainedNonFigCount]
  | cons e rest ih =>
    rcases h : e.coord with _ | c
    · rw [collectElements_cons_none h, retainedNonFigCount_cons]
      simp [retainedNonFig, isRetained, h, ih]
    · by_cases hz : 0 < c.cropSize
      · by_cases hf : e.label = "fig"
        · rw [collectElements_cons_fig h hz hf, retainedNonFigCount_cons]
          simp [retainedNonFig, isRetained, h, hz, hf, ih]
        · rw [collectElements_cons_tt h hz hf, retainedNonFigCount_cons]
          have hfb : ¬ (e.label == "fig") = true := by simpa using hf
          simp [retainedNonFig, isRetained, h, hz, hfb, ih, Nat.add_comm]
      · rw [collectElements_cons_skip h hz, retainedNonFigCount_cons]
        simp [retainedNonFig, isRetained, h, hz, ih]

theorem collectElements_snd_length (l : List LayoutElem) (ro : Nat) :
    (collectElements l ro).2.length = retainedFigCount l := by
  induction l generalizing ro with
  | nil => simp [collectElements_nil, retainedFigCount]
  | cons e rest ih =>
    rcases h : e.coord with _ | c
    · rw [collectElements_cons_none h, retainedFigCount_cons]
      simp [retainedFig, isRetained, h, ih]
    · by_cases hz : 0 < c.cropSize
      · by_cases hf : e.label = "fig"
        · rw [collectElements_cons_fig h hz hf, retainedFigCount_cons]
          simp [retainedFig, isRetained, h, hz, hf, ih, Nat.add_comm]
        · rw [collectElements_cons_tt h hz hf, retainedFigCount_cons]
          have : ¬ (e.label == "fig") = true := by simpa using hf
          simp [retainedFig, this, ih]
      · rw [collectElements_cons_skip h hz, retainedFigCount_cons]
        simp [retainedFig, isRetained, h, hz, ih]

/-! ### Splitting the traversal across an append -/

theorem collectElements_append (l₁ l₂ : List LayoutElem) (ro : Nat) :
    collectElements (l₁ ++ l₂) ro =
      ((collectElements l₁ ro).1 ++
         (collectElements l₂ (ro + nonFailCount l₁)).1,
       (collectElements l₁ ro).2 ++
         (collectElements l₂ (ro + nonFailCount l₁)).2) := by
  induction l₁ generalizing ro with
  | nil => simp [collectElements_nil, nonFailCount_nil]
  | cons e rest ih =>
    rcases h : e.coord with _ | c
    · have hn : ro + nonFailCount (e :: rest) = ro + nonFailCount rest := by
        simp [nonFailCount_cons, h]
      rw [List.cons_append, collectElements_cons_none h,
          collectElements_cons_none h, hn, ih]
    · have hn : ro + nonFailCount (e :: rest) = (ro + 1) + nonFailCount rest := by
        simp [nonFailCount_cons, h]; omega
      by_cases hz : 0 < c.cropSize
      · by_cases hf : e.label = "fig"
        · rw [List.cons_append, collectElements_cons_fig h hz hf,
              collectElements_cons_fig h hz hf, hn, ih]
          simp
        · rw [List.cons_append, collectElements_cons_tt h hz hf,
              collectElements_cons_tt h hz hf, hn, ih]
          simp
      · rw [List.cons_append, collectElements_cons_skip h hz,
            collectElements_cons_skip h hz, hn, ih]

theorem inOrderResults_append (l₁ l₂ : List LayoutElem) (batch : List String)
    (ro : Nat) :
    inOrderResults (l₁ ++ l₂) batch ro =
      inOrderResults l₁ batch ro ++
      inOrderResults l₂ (batch.drop (retainedNonFigCount l₁))
        (ro + nonFailCount l₁) := by
  induction l₁ generalizing ro batch with
  | nil => simp [inOrderResults_nil, nonFailCount_nil, retainedNonFigCount]
  | cons e rest ih =>
    rcases h : e.coord with _ | c
    · have hn : ro + nonFailCount (e :: rest) = ro + nonFailCount rest := by
        simp [nonFailCount_cons, h]
      have hq : retainedNonFigCount (e :: rest) = retainedNonFigCount rest := by
        simp [retainedNonFigCount_cons, retainedNonFig, isRetained, h]
      rw [List.cons_append, inOrderResults_cons_none h,
          inOrderResults_cons_none h, hn, hq, ih]
    · have hn : ro + nonFailCount (e :: rest) = (ro + 1) + nonFailCount rest := by
        simp [nonFailCount_cons, h]; omega
      by_cases hz : 0 < c.cropSize
      · by_cases hf : e.label = "fig"
        · have hq : retainedNonFigCount (e :: rest) = retainedNonFigCount rest := by
            simp [retainedNonFigCount_cons, retainedNonFig, isRetained, h, hf]
          rw [List.cons_append, inOrderResults_cons_fig h hz hf,
              inOrderResults_cons_fig h hz hf, hn, hq, ih]
          simp
        · have hq : retainedNonFigCount (e :: rest) =
              retainedNonFigCount rest + 1 := by
            have hfb : ¬ (e.label == "fig") = true := by simpa using hf
            simp [retainedNonFigCount_cons, retainedNonFig, isRetained, h, hz,
              hfb, Nat.add_comm]
          rcases batch with _ | ⟨t, bs⟩
          · rw [List.cons_append, inOrderResults_cons_tt_nil h hz hf,
                inOrderResults_cons_tt_nil h hz hf, hn, ih]
            simp
          · rw [List.cons_append, inOrderResults_cons_tt h hz hf,
                inOrderResults_cons_tt h hz hf, hn, hq, ih]
            simp
      · have hq : retainedNonFigCount (e :: rest) = retainedNonFigCount rest := by
          simp [retainedNonFigCount_cons, retainedNonFig, isRetained, h, hz]
        rw [List.cons_append, inOrderResults_cons_skip h hz,
            inOrderResults_cons_skip h hz, hn, hq, ih]

/-! ### The merged list is a permutation of the in-order list -/

/-- How a batched recognition string is reassembled with its queued element
(the loop body of `for i, result in enumerate(batch_results)`). -/
def reassemble (p : String × TTElem) : ResultElem :=
  { label := p.2.label, bbox := p.2.bbox, text := p.1.trim,
    reading_order := p.2.reading_order }

theorem merged_perm_inOrder (l : List LayoutElem) (batch : List String)
    (ro : Nat) (hb : batch.length = (collectElements l ro).1.length) :
    ((collectElements l ro).2 ++
        (batch.zip (collectElements l ro).1).map reassemble).Perm
      (inOrderResults l batch ro) := by
  induction l generalizing ro batch with
  | nil => simp [collectElements_nil, inOrderResults_nil]
  | cons e rest ih =>
    rcases h : e.coord with _ | c
    · rw [collectElements_cons_none h] at hb ⊢
      rw [inOrderResults_cons_none h]
      exact ih batch ro hb
    · by_cases hz : 0 < c.cropSize
      · by_cases hf : e.label = "fig"
        · rw [collectElements_cons_fig h hz hf] at hb ⊢
          rw [inOrderResults_cons_fig h hz hf]
          exact (ih batch (ro + 1) (by simpa using hb)).cons _
        · rw [collectElements_cons_tt h hz hf] at hb ⊢
          rcases batch with _ | ⟨t, bs⟩
          · simp at hb
          · rw [inOrderResults_cons_tt h hz hf]
            simp only [List.zip_cons_cons, List.map_cons]
            refine List.Perm.trans List.perm_middle ?_
            simp only [List.length_cons, Nat.add_right_cancel_iff] at hb
            exact (ih bs (ro + 1) hb).cons _
      · rw [collectElements_cons_skip h hz] at hb ⊢
        rw [inOrderResults_cons_skip h hz]
        exact ih batch (ro + 1) hb

/-! ### Reading-order bounds and strict ordering of the in-order list -/

theorem inOrderResults_ro_le (l : List LayoutElem) (batch : List String)
    (ro : Nat) : ∀ r ∈ inOrderResults l batch ro, ro ≤ r.reading_order := by
  induction l generalizing ro batch with
  | nil => simp [inOrderResults_nil]
  | cons e rest ih =>
    intro r hr
    rcases h : e.coord with _ | c
    · rw [inOrderResults_cons_none h] at hr
      exact ih batch ro r hr
    · by_cases hz : 0 < c.cropSize
      · by_cases hf : e.label = "fig"
        · rw [inOrderResults_cons_fig h hz hf] at hr
          rcases List.mem_cons.1 hr with hr | hr
          · simp [hr]
          · exact Nat.le_of_succ_le (ih batch (ro + 1) r hr)
        · rcases batch with _ | ⟨t, bs⟩
          · rw [inOrderResults_cons_tt_nil h hz hf] at hr
            exact Nat.le_of_succ_le (ih [] (ro + 1) r hr)
          · rw [inOrderResults_cons_tt h hz hf] at hr
            rcases List.mem_cons.1 hr with hr | hr
            · simp [hr]
            · exact Nat.le_of_succ_le (ih bs (ro + 1) r hr)
      · rw [inOrderResults_cons_skip h hz] at hr
        exact Nat.le_of_succ_le (ih batch (ro + 1) r hr)

theorem inOrderResults_ro_lt (l : List LayoutElem) (batch : List String)
    (ro : Nat) :
    ∀ r ∈ inOrderResults l batch ro, r.reading_order < ro + nonFailCount l := by
  induction l generalizing ro batch with
  | nil => simp [inOrderResults_nil]
  | cons e rest ih =>
    intro r hr
    rcases h : e.coord with _ | c
    · rw [inOrderResults_cons_none h] at hr
      have := ih batch ro r hr
      rw [nonFailCount_cons]
      simp [h] at this ⊢
      omega
    · have hcount : nonFailCount (e :: rest) = 1 + nonFailCount rest := by
        simp [nonFailCount_cons, h]
      by_cases hz : 0 < c.cropSize
      · by_cases hf : e.label = "fig"
        · rw [inOrderResults_cons_fig h hz hf] at hr
          rcases List.mem_cons.1 hr with hr | hr
          · subst hr
            show ro < ro + nonFailCount (e :: rest)
            rw [hcount]; omega
          · have := ih batch (ro + 1) r hr
            rw [hcount]; omega
        · rcases batch with _ | ⟨t, bs⟩
          · rw [inOrderResults_cons_tt_nil h hz hf] at hr
            have := ih [] (ro + 1) r hr
            rw [hcount]; omega
          · rw [inOrderResults_cons_tt h hz hf] at hr
            rcases List.mem_cons.1 hr with hr | hr
            · subst hr
              show ro < ro + nonFailCount (e :: rest)
              rw [hcount]; omega
            · have := ih bs (ro + 1) r hr
              rw [hcount]; omega
      · rw [inOrderResults_cons_skip h hz] at hr
        have := ih batch (ro + 1) r hr
        rw [hcount]; omega

theorem inOrderResults_pairwise (l : List LayoutElem) (batch : List String)
    (ro : Nat) :
    List.Pairwise (fun a b : ResultElem => a.reading_order < b.reading_order)
      (inOrderResults l batch ro) := by
  induction l generalizing ro batch with
  | nil => simp [inOrderResults_nil]
  | cons e rest ih =>
    rcases h : e.coord with _ | c
    · rw [inOrderResults_cons_none h]; exact ih batch ro
    · by_cases hz : 0 < c.cropSize
      · by_cases hf : e.label = "fig"
        · rw [inOrderResults_cons_fig h hz hf]
          refine List.Pairwise.cons (fun b hb => ?_) (ih batch (ro + 1))
          have := inOrderResults_ro_le rest batch (ro + 1) b hb
          simp; omega
        · rcases batch with _ | ⟨t, bs⟩
          · rw [inOrderResults_cons_tt_nil h hz hf]; exact ih [] (ro + 1)
          · rw [inOrderResults_cons_tt h hz hf]
            refine List.Pairwise.cons (fun b hb => ?_) (ih bs (ro + 1))
            have := inOrderResults_ro_le rest bs (ro + 1) b hb
            simp; omega
      · rw [inOrderResults_cons_skip h hz]; exact ih batch (ro + 1)

/-! ### The final sort restores the in-order list -/

/-- Strict reading-order comparison on results. -/
def roLT (a b : ResultElem) : Prop := a.reading_order < b.reading_order

instance : IsAntisymm ResultElem roLT :=
  ⟨fun _ _ h1 h2 => absurd h2 (Nat.lt_asymm h1)⟩

theorem readingOrderLe_trans (a b c : ResultElem)
    (h1 : readingOrderLe a b = true) (h2 : readingOrderLe b c = true) :
    readingOrderLe a c = true := by
  simp [readingOrderLe] at *; omega

theorem readingOrderLe_total (a b : ResultElem) :
    (readingOrderLe a b || readingOrderLe b a) = true := by
  simp [readingOrderLe]; omega

/-- Sorting any permutation of a strictly reading-order-sorted list with the
stable sort of `process_elements_api` recovers that list exactly. -/
theorem sortResults_eq_of_perm {merged target : List ResultElem}
    (hp : merged.Perm target) (ht : List.Pairwise roLT target) :
    sortResults merged = target := by
  have h1 : (sortResults merged).Perm target :=
    (List.mergeSort_perm merged readingOrderLe).trans hp
  have hs : List.Pairwise (fun a b => readingOrderLe a b = true)
      (sortResults merged) :=
    List.sorted_mergeSort readingOrderLe_trans readingOrderLe_total merged
  have hndt : (target.map (fun r => r.reading_order)).Nodup :=
    List.pairwise_map.2 (ht.imp (fun hlt => Nat.ne_of_lt hlt))
  have hnds : ((sortResults merged).map (fun r => r.reading_order)).Nodup :=
    ((h1.map (fun r => r.reading_order)).nodup_iff).2 hndt
  have hne : List.Pairwise
      (fun a b : ResultElem => a.reading_order ≠ b.reading_order)
      (sortResults merged) := List.pairwise_map.1 hnds
  have hlt : List.Pairwise roLT (sortResults merged) := by
    refine (hs.and hne).imp ?_
    rintro a b ⟨hab, hne'⟩
    exact lt_of_le_of_ne (of_decide_eq_true hab) hne'
  exact List.eq_of_perm_of_sorted h1 hlt ht

/-- Master lemma: when the batched chat call returns one string per queued
crop, `process_elements_api` returns exactly the in-order result list. -/
theorem process_elements_api_eq_inOrder
    (chat : List String → List Nat → Int → Except String (List String))
    (layout : List LayoutElem) (mbs : Int) (batch : List String)
    (hc : chat ((queueOf layout).map (fun e => e.prompt))
        ((queueOf layout).map (fun e => e.crop)) 1 = .ok batch)
    (hb : batch.length = (queueOf layout).length) :
    (process_elements_api chat layout mbs).1 =
      .ok (inOrderResults layout batch 0) := by
  unfold process_elements_api
  by_cases hq : (collectElements layout 0).1.isEmpty
  · simp only [hq, if_true]
    congr 1
    apply sortResults_eq_of_perm _ (inOrderResults_pairwise layout batch 0)
    have := merged_perm_inOrder layout batch 0 (by simpa [queueOf] using hb)
    have hqe : (collectElements layout 0).1 = [] := by
      simpa [List.isEmpty_iff] using hq
    simpa [hqe] using this
  · simp only [hq, Bool.false_eq_true, if_false]
    rw [show chat ((collectElements layout 0).1.map (fun e => e.prompt))
          ((collectElements layout 0).1.map (fun e => e.crop)) 1 = .ok batch
        from hc]
    simp only
    congr 1
    apply sortResults_eq_of_perm _ (inOrderResults_pairwise layout batch 0)
    exact merged_perm_inOrder layout batch 0 (by simpa [queueOf] using hb)

/-! ### Concrete data used by the witnesses -/

/-- A concrete chat oracle returning two recognition strings. -/
def wchat : List String → List Nat → Int → Except String (List String) :=
  fun _ _ _ => .ok ["alpha", " beta "]

/-- A concrete five-element layout exercising every branch of the loop: a
queued text element, a retained figure, a coordinate failure, an empty-crop
skip and a queued table element. -/
def wlayout : List LayoutElem :=
  [ { label := "text",
      coord := some { cropSize := 4, origBbox := [0, 0, 2, 2], cropId := 0 } },
    { label := "fig",
      coord := some { cropSize := 9, origBbox := [2, 2, 5, 5], cropId := 1 } },
    { label := "para", coord := none },
    { label := "tab",
      coord := some { cropSize := 0, origBbox := [9, 9, 9, 9], cropId := 2 } },
    { label := "tab",
      coord := some { cropSize := 6, origBbox := [5, 5, 8, 8], cropId := 3 } } ]

/-! ### Claim theorems about the element-processing core -/

/-- C4: for every parsed layout, the page-level result list returned by
`process_elements_api` has length equal to the number of non-empty text/table
crops queued for recognition plus the number of figures emitted (figures with
a non-empty crop), and the list is deterministically ordered to match the
original layout order — it equals the in-order traversal list, hence is
sorted by `reading_order`. (The batched chat call is assumed to return one
string per queued crop, as the model contract specifies.) -/
theorem process_elements_api_length_and_order
    (chat : List String → List Nat → Int → Except String (List String))
    (layout : List LayoutElem) (mbs : Int) (batch : List String)
    (hc : chat ((queueOf layout).map (fun x => x.prompt))
        ((queueOf layout).map (fun x => x.crop)) 1 = .ok batch)
    (hb : batch.length = (queueOf layout).length) :
    ∃ res, (process_elements_api chat layout mbs).1 = .ok res ∧
      res.length = retainedNonFigCount layout + retainedFigCount layout ∧
      res = inOrderResults layout batch 0 ∧
      List.Pairwise
        (fun a b : ResultElem => a.reading_order ≤ b.reading_order) res := by
  refine ⟨inOrderResults layout batch 0,
    process_elements_api_eq_inOrder chat layout mbs batch hc hb, ?_, rfl, ?_⟩
  · have hb' : batch.length = (collectElements layout 0).1.length := by
      simpa [queueOf] using hb
    have hperm := merged_perm_inOrder layout batch 0 hb'
    rw [← hperm.length_eq]
    simp only [List.length_append, List.length_map, List.length_zip,
      collectElements_fst_length, collectElements_snd_length, hb']
    omega
  · exact (inOrderResults_pairwise layout batch 0).imp
      (fun hlt => Nat.le_of_lt hlt)

/-- Witness for C4 at a concrete layout and chat oracle. -/
theorem process_elements_api_length_and_order_witness :
    ∃ res, (process_elements_api wchat wlayout 4).1 = .ok res ∧
      res.length = retainedNonFigCount wlayout + retainedFigCount wlayout ∧
      res = inOrderResults wlayout ["alpha", " beta "] 0 ∧
      List.Pairwise
        (fun a b : ResultElem => a.reading_order ≤ b.reading_order) res :=
  process_elements_api_length_and_order wchat wlayout 4 ["alpha", " beta "]
    rfl (by decide)

/-- C5: the caller-requested `max_batch_size` is ignored: the output of
`process_elements_api` is independent of it, and whenever the batched chat
call happens its `max_batch_size` argument (recorded in the second
component) equals `1`. -/
theorem process_elements_api_batch_size_forced_one
    (chat : List String → List Nat → Int → Except String (List String))
    (layout : List LayoutElem) (a b : Int) :
    process_elements_api chat layout a = process_elements_api chat layout b ∧
    ((process_elements_api chat layout a).2 = none ∨
     (process_elements_api chat layout a).2 = some 1) := by
  refine ⟨rfl, ?_⟩
  unfold process_elements_api
  by_cases hq : (collectElements layout 0).1.isEmpty
  · simp [hq]
  · simp only [hq, Bool.false_eq_true, if_false]
    rcases hcall : chat ((collectElements layout 0).1.map (fun x => x.prompt))
        ((collectElements layout 0).1.map (fun x => x.crop)) 1 with er | bs <;>
      simp [hcall]

/-- C6: every element of the final page-parse result list has a unique
`reading_order`; each value lies below the number of layout elements (hence
in `[0, N + M + skipped)` for N non-figure and M figure elements); the list
is sorted by `reading_order`; and it equals the in-order traversal list, so
the values match the sequence in which elements appeared in the raw
layout. -/
theorem process_elements_api_reading_order_invariant
    (chat : List String → List Nat → Int → Except String (List String))
    (layout : List LayoutElem) (mbs : Int) (batch : List String)
    (hc : chat ((queueOf layout).map (fun x => x.prompt))
        ((queueOf layout).map (fun x => x.crop)) 1 = .ok batch)
    (hb : batch.length = (queueOf layout).length) :
    ∃ res, (process_elements_api chat layout mbs).1 = .ok res ∧
      (res.map (fun r => r.reading_order)).Nodup ∧
      (∀ r ∈ res, r.reading_order < layout.length) ∧
      List.Pairwise
        (fun a b : ResultElem => a.reading_order ≤ b.reading_order) res ∧
      res = inOrderResults layout batch 0 := by
  refine ⟨inOrderResults layout batch 0,
    process_elements_api_eq_inOrder chat layout mbs batch hc hb, ?_, ?_, ?_, rfl⟩
  · exact List.pairwise_map.2
      ((inOrderResults_pairwise layout batch 0).imp (fun hlt => Nat.ne_of_lt hlt))
  · intro r hr
    have h1 := inOrderResults_ro_lt layout batch 0 r hr
    have h2 : nonFailCount layout ≤ layout.length :=
      List.length_filter_le _ _
    omega
  · exact (inOrderResults_pairwise layout batch 0).imp
      (fun hlt => Nat.le_of_lt hlt)

/-- Witness for C6 at a concrete layout and chat oracle. -/
theorem process_elements_api_reading_order_invariant_witness :
    ∃ res, (process_elements_api wchat wlayout 2).1 = .ok res ∧
      (res.map (fun r => r.reading_order)).Nodup ∧
      (∀ r ∈ res, r.reading_order < wlayout.length) ∧
      List.Pairwise
        (fun a b : ResultElem => a.reading_order ≤ b.reading_order) res ∧
      res = inOrderResults wlayout ["alpha", " beta "] 0 :=
  process_elements_api_reading_order_invariant wchat wlayout 2
    ["alpha", " beta "] rfl (by decide)

/-- C7: a zero-area (empty after clamping) element is excluded from the
result list while the reading-order counter is still incremented for it, and
nothing else changes: replacing the zero-area element `e` by a retained
figure `e'` at the same position only inserts `e'`'s entry, carrying the
reading order `nonFailCount pre` that the skip had consumed, while every
other result entry (prefix `A` and suffix `B`) is identical in both runs;
in particular no result of the skipping run carries that reading order. -/
theorem process_elements_api_zero_area_skip
    (chat : List String → List Nat → Int → Except String (List String))
    (mbs mbs' : Int) (pre post : List LayoutElem) (e e' : LayoutElem)
    (c c' : CoordOutput) (batch : List String)
    (he : e.coord = some c) (hz : c.cropSize = 0)
    (he' : e'.coord = some c') (hz' : 0 < c'.cropSize) (hf' : e'.label = "fig")
    (hc : chat ((queueOf (pre ++ e :: post)).map (fun x => x.prompt))
        ((queueOf (pre ++ e :: post)).map (fun x => x.crop)) 1 = .ok batch)
    (hb : batch.length = (queueOf (pre ++ e :: post)).length) :
    ∃ A B,
      (process_elements_api chat (pre ++ e :: post) mbs).1 = .ok (A ++ B) ∧
      (process_elements_api chat (pre ++ e' :: post) mbs').1 =
        .ok (A ++ { label := e'.label, bbox := c'.origBbox, text := "",
                    reading_order := nonFailCount pre } :: B) ∧
      ∀ r ∈ A ++ B, r.reading_order ≠ nonFailCount pre := by
  have hzn : ¬ 0 < c.cropSize := by omega
  have hqeq : queueOf (pre ++ e :: post) = queueOf (pre ++ e' :: post) := by
    unfold queueOf
    rw [collectElements_append, collectElements_append,
        collectElements_cons_skip he hzn, collectElements_cons_fig he' hz' hf']
  have hm1 := process_elements_api_eq_inOrder chat (pre ++ e :: post) mbs
    batch hc hb
  have hm2 := process_elements_api_eq_inOrder chat (pre ++ e' :: post) mbs'
    batch (by rw [← hqeq]; exact hc) (by rw [← hqeq]; exact hb)
  refine ⟨inOrderResults pre batch 0,
    inOrderResults post (batch.drop (retainedNonFigCount pre))
      (nonFailCount pre + 1), ?_, ?_, ?_⟩
  · rw [hm1, inOrderResults_append, inOrderResults_cons_skip he hzn,
        Nat.zero_add]
  · rw [hm2, inOrderResults_append, inOrderResults_cons_fig he' hz' hf',
        Nat.zero_add]
  · intro r hr
    rcases List.mem_append.1 hr with hr | hr
    · have := inOrderResults_ro_lt pre batch 0 r hr
      omega
    · have := inOrderResults_ro_le post
        (batch.drop (retainedNonFigCount pre)) (nonFailCount pre + 1) r hr
      omega

/-- Witness for C7: the concrete layout's empty-crop table element (position
3, zero area) versus a retained figure at the same position. -/
theorem process_elements_api_zero_area_skip_witness :
    ∃ A B,
      (process_elements_api wchat wlayout 4).1 = .ok (A ++ B) ∧
      (process_elements_api wchat
          (wlayout.take 3 ++
            { label := "fig",
              coord := some { cropSize := 5, origBbox := [9, 9, 9, 9],
                              cropId := 2 } } :: wlayout.drop 4) 7).1 =
        .ok (A ++ { label := "fig", bbox := [9, 9, 9, 9], text := "",
                    reading_order := nonFailCount (wlayout.take 3) } :: B) ∧
      ∀ r ∈ A ++ B, r.reading_order ≠ nonFailCount (wlayout.take 3) := by
  have h := process_elements_api_zero_area_skip wchat 4 7
    (wlayout.take 3) (wlayout.drop 4)
    { label := "tab",
      coord := some { cropSize := 0, origBbox := [9, 9, 9, 9], cropId := 2 } }
    { label := "fig",
      coord := some { cropSize := 5, origBbox := [9, 9, 9, 9], cropId := 2 } }
    { cropSize := 0, origBbox := [9, 9, 9, 9], cropId := 2 }
    { cropSize := 5, origBbox := [9, 9, 9, 9], cropId := 2 }
    ["alpha", " beta "] rfl rfl rfl (by decide) rfl rfl (by decide)
  simpa using h

/-- C8: an exception during coordinate handling of a single element (modelled
by `coord = none`) skips exactly that element: the whole run behaves as if
the element were absent, so every remaining layout element is still processed
and the page yields partial results instead of failing. -/
theorem process_elements_api_failing_element_skipped
    (chat : List String → List Nat → Int → Except String (List String))
    (mbs : Int) (pre post : List LayoutElem) (e : LayoutElem)
    (he : e.coord = none) :
    process_elements_api chat (pre ++ e :: post) mbs =
      process_elements_api chat (pre ++ post) mbs := by
  have hcoll : collectElements (pre ++ e :: post) 0 =
      collectElements (pre ++ post) 0 := by
    rw [collectElements_append, collectElements_append,
        collectElements_cons_none he]
  unfold process_elements_api
  rw [hcoll]

/-- Witness for C8: removing the concrete layout's failing element (position
2) does not change the output. -/
theorem process_elements_api_failing_element_skipped_witness :
    process_elements_api wchat wlayout 4 =
      process_elements_api wchat (wlayout.take 2 ++ wlayout.drop 3) 4 := by
  have h := process_elements_api_failing_element_skipped wchat 4
    (wlayout.take 2) (wlayout.drop 3) { label := "para", coord := none } rfl
  simpa using h

/-! ### The HTTP layer: exceptions, auth gate, pipelines, endpoints -/

/-- A Python exception as seen by the endpoint handlers: either an
`HTTPException(status_code, detail)` or a generic exception with its
message. -/
inductive PyErr
  | httpExc (status : Nat) (detail : String)
  | exc (msg : String)
deriving DecidableEq

/-- The loaded DOLPHIN model, abstracted by its three chat behaviours (which
may raise, modelled by `Except`) and the external `crop_margin` helper.
Images are abstract identifiers. -/
structure DolphinModel where
  chatLayout : Nat → Except String (List LayoutElem)
  chatBatch : List String → List Nat → Int → Except String (List String)
  chatSingle : String → Nat → Except String String
  crop_margin : Nat → Nat

/-- An entry of the element-level recognition result: `[{label, text}]`. -/
structure ElementResult where
  label : String
  text : String
deriving DecidableEq

/-- The `ParseResponse` pydantic model, generic in the result entry type
(page results carry bbox/reading order, element results do not). -/
structure ParseResponse (α : Type) where
  success : Bool
  message : String
  results : Option (List α) := none
  processing_time : Option Nat := none
deriving DecidableEq

/-- What the framework sends back for one request: either an HTTP error
produced by a raised `HTTPException`, or a serialized `ParseResponse`. -/
inductive EndpointResult (α : Type)
  | httpError (status : Nat) (detail : String)
  | response (r : ParseResponse α)
deriving DecidableEq

/-- Response of `GET /health`. -/
structure HealthResponse where
  status : String
  model_loaded : Bool
  timestamp : Nat
deriving DecidableEq

/-- Process-wide server state: the `API_KEYS` set (only membership and
emptiness are used, so a list represents it), the `model` global, the
external base64/PIL decoder behaviour, the external `Image.open` behaviour
for uploads, the extension check `os.path.splitext(...)[1] in
allowed_extensions`, and abstract clock values for `time.time()` readings. -/
structure ServerState where
  api_keys : List String
  model : Option DolphinModel
  decode : String → Except String Nat
  openImage : List Nat → Except String Nat
  extAllowed : String → Bool
  now : Nat
  elapsed : Nat

/-- ASCII lowercasing of one character, as `str.lower()` acts on the
authorization scheme token. -/
def lowerChar (c : Char) : Char :=
  if 'A' ≤ c ∧ c ≤ 'Z' then Char.ofNat (c.toNat + 32) else c

/-- ASCII lowercasing of a string (the scheme token is ASCII). -/
def lowerString (s : String) : String := ⟨s.data.map lowerChar⟩

/-- The `fastapi.security.HTTPBearer()` dependency with its default
`auto_error=True`, as documented: resolves the `Authorization` header
(modelled as an optional (scheme, credentials) pair after splitting on the
first space) before the handler body runs; a missing header or empty part
raises 403 "Not authenticated", a non-bearer scheme raises 403 "Invalid
authentication credentials". -/
def HTTPBearer_dependency (authorization : Option (String × String)) :
    Except PyErr (String × String) :=
  match authorization with
  | none => .error (.httpExc 403 "Not authenticated")
  | some (scheme, credentials) =>
    if scheme = "" ∨ credentials = "" then
      .error (.httpExc 403 "Not authenticated")
    else if lowerString scheme ≠ "bearer" then
      .error (.httpExc 403 "Invalid authentication credentials")
    else .ok (scheme, credentials)

/-- The gate `verify_api_key`: the security dependency resolves first; then, if the
key set is empty, verification is skipped; otherwise the presented token
must be a member of the set, else 401. -/
def verify_api_key (api_keys : List String)
    (authorization : Option (String × String)) : Except PyErr Bool :=
  match HTTPBearer_dependency authorization with
  | .error err => .error err
  | .ok credentials =>
    if api_keys = [] then .ok true
    else
      let token := credentials.2
      if token ∉ api_keys then .error (.httpExc 401 "无效的API Key")
      else .ok true

/-- The gate `verify_api_key_header`: the alternative `X-API-Key` gate (defined in the
source but not attached to any endpoint). -/
def verify_api_key_header (api_keys : List String)
    (x_api_key : Option String) : Except PyErr Bool :=
  if api_keys = [] then .ok true
  else
    match x_api_key with
    | none => .error (.httpExc 401 "无效的API Key")
    | some k =>
      if k ∉ api_keys then .error (.httpExc 401 "无效的API Key")
      else .ok true

/-- The helper `base64_to_image`: any decoding failure is caught and re-raised as an
`HTTPException(400)` with a descriptive message. -/
def base64_to_image (decode : String → Except String Nat)
    (base64_str : String) : Except PyErr Nat :=
  match decode base64_str with
  | .ok image => .ok image
  | .error e => .error (.httpExc 400 ("图像解码失败: " ++ e))

/-- The pipeline `process_page_api`: stage-1 layout chat, then `process_elements_api`;
any exception inside is caught and re-raised as `HTTPException(500)` with a
descriptive message. The second component counts `model.chat`
invocations. -/
def process_page_api (m : DolphinModel) (pil_image : Nat)
    (max_batch_size : Int) : Except PyErr (List ResultElem) × Nat :=
  match m.chatLayout pil_image with
  | .error e => (.error (.httpExc 500 ("页面解析失败: " ++ e)), 1)
  | .ok layout_output =>
    match process_elements_api m.chatBatch layout_output max_batch_size with
    | (.error e, used) =>
      (.error (.httpExc 500 ("页面解析失败: " ++ e)),
       1 + (if used.isSome then 1 else 0))
    | (.ok recognition_results, used) =>
      (.ok recognition_results, 1 + (if used.isSome then 1 else 0))

/-- The pipeline `process_element_api`: crops margins, picks the prompt and label from the
element type, performs one chat call; any exception is caught and re-raised
as `HTTPException(500)`. The second component counts `model.chat`
invocations. -/
def process_element_api (m : DolphinModel) (pil_image : Nat)
    (element_type : String) : Except PyErr (List ElementResult) × Nat :=
  let img := m.crop_margin pil_image
  let pl : String × String :=
    if element_type = "table" then ("Parse the table in the image.", "tab")
    else if element_type = "formula" then ("Read text in the image.", "formula")
    else ("Read text in the image.", "text")
  match m.chatSingle pl.1 img with
  | .error e => (.error (.httpExc 500 ("元素解析失败: " ++ e)), 1)
  | .ok result => (.ok [{ label := pl.2, text := result.trim }], 1)

/-- Endpoint `POST /parse_page`: auth dependency, model-initialized check, then a try
block decoding the image and running the page pipeline; a raised
`HTTPException` is re-raised while any other exception is returned as a
`success=false` body. The second component counts `model.chat`
invocations. -/
def parse_page (st : ServerState) (image_base64 : String)
    (max_batch_size : Int) (authorization : Option (String × String)) :
    EndpointResult ResultElem × Nat :=
  match verify_api_key st.api_keys authorization with
  | .error (.httpExc s d) => (.httpError s d, 0)
  | .error (.exc m) => (.httpError 500 m, 0)
  | .ok _ =>
    match st.model with
    | none => (.httpError 503 "模型未初始化", 0)
    | some m =>
      match base64_to_image st.decode image_base64 with
      | .error (.httpExc s d) => (.httpError s d, 0)
      | .error (.exc msg) =>
        (.response { success := false, message := "解析失败: " ++ msg,
                     processing_time := some st.elapsed }, 0)
      | .ok pil_image =>
        match process_page_api m pil_image max_batch_size with
        | (.ok results, calls) =>
          (.response { success := true, message := "页面解析成功",
                       results := some results,
                       processing_time := some st.elapsed }, calls)
        | (.error (.httpExc s d), calls) => (.httpError s d, calls)
        | (.error (.exc msg), calls) =>
          (.response { success := false, message := "解析失败: " ++ msg,
                       processing_time := some st.elapsed }, calls)

/-- Endpoint `POST /parse_element`: auth dependency, model-initialized check, the
`element_type` validation (raising 400 before the try block and before any
decoding or model work), then the try block mirroring `parse_page`. -/
def parse_element (st : ServerState) (image_base64 : String)
    (element_type : String) (authorization : Option (String × String)) :
    EndpointResult ElementResult × Nat :=
  match verify_api_key st.api_keys authorization with
  | .error (.httpExc s d) => (.httpError s d, 0)
  | .error (.exc m) => (.httpError 500 m, 0)
  | .ok _ =>
    match st.model with
    | none => (.httpError 503 "模型未初始化", 0)
    | some m =>
      if element_type ∉ ["text", "table", "formula"] then
        (.httpError 400 "element_type必须是text、table或formula之一", 0)
      else
        match base64_to_image st.decode image_base64 with
        | .error (.httpExc s d) => (.httpError s d, 0)
        | .error (.exc msg) =>
          (.response { success := false, message := "解析失败: " ++ msg,
                       processing_time := some st.elapsed }, 0)
        | .ok pil_image =>
          match process_element_api m pil_image element_type with
          | (.ok results, calls) =>
            (.response { success := true, message := "元素解析成功",
                         results := some results,
                         processing_time := some st.elapsed }, calls)
          | (.error (.httpExc s d), calls) => (.httpError s d, calls)
          | (.error (.exc msg), calls) =>
            (.response { success := false, message := "解析失败: " ++ msg,
                         processing_time := some st.elapsed }, calls)

/-- An uploaded file as the handler sees it: filename, declared content type
and raw bytes. -/
structure UploadFileData where
  filename : String
  content_type : Option String
  contents : List Nat

/-- The shared upload-file validation of the two upload endpoints: missing
filename, a non-image declared content type, or (when no content type is
declared) a disallowed extension each raise 400. Returns the error detail if
validation fails. -/
def upload_validation (st : ServerState) (file : UploadFileData) :
    Option String :=
  if file.filename = "" then some "未提供有效文件"
  else
    match file.content_type with
    | some ct =>
      if ¬ ct.startsWith "image/" then some "文件必须是图像格式" else none
    | none =>
      if ¬ st.extAllowed file.filename then some "不支持的文件格式，请上传图像文件"
      else none

/-- Endpoint `POST /upload_parse_page`: auth, model check, file validation, then the
try block: empty contents raise 400 (re-raised), `Image.open` failures are
generic exceptions caught into a `success=false` body, and the page pipeline
runs as in `parse_page`. -/
def upload_parse_page (st : ServerState) (file : UploadFileData)
    (max_batch_size : Int) (authorization : Option (String × String)) :
    EndpointResult ResultElem × Nat :=
  match verify_api_key st.api_keys authorization with
  | .error (.httpExc s d) => (.httpError s d, 0)
  | .error (.exc m) => (.httpError 500 m, 0)
  | .ok _ =>
    match st.model with
    | none => (.httpError 503 "模型未初始化", 0)
    | some m =>
      match upload_validation st file with
      | some d => (.httpError 400 d, 0)
      | none =>
        if file.contents = [] then (.httpError 400 "文件内容为空", 0)
        else
          match st.openImage file.contents with
          | .error msg =>
            (.response { success := false, message := "解析失败: " ++ msg,
                         processing_time := some st.elapsed }, 0)
          | .ok pil_image =>
            match process_page_api m pil_image max_batch_size with
            | (.ok results, calls) =>
              (.response { success := true, message := "页面解析成功",
                           results := some results,
                           processing_time := some st.elapsed }, calls)
            | (.error (.httpExc s d), calls) => (.httpError s d, calls)
            | (.error (.exc msg), calls) =>
              (.response { success := false, message := "解析失败: " ++ msg,
                           processing_time := some st.elapsed }, calls)

/-- Endpoint `POST /upload_parse_element`: auth, model check, file validation, the
`element_type` validation (still before the try block), then the try block
mirroring `upload_parse_page` with the element pipeline. -/
def upload_parse_element (st : ServerState) (file : UploadFileData)
    (element_type : String) (authorization : Option (String × String)) :
    EndpointResult ElementResult × Nat :=
  match verify_api_key st.api_keys authorization with
  | .error (.httpExc s d) => (.httpError s d, 0)
  | .error (.exc m) => (.httpError 500 m, 0)
  | .ok _ =>
    match st.model with
    | none => (.httpError 503 "模型未初始化", 0)
    | some m =>
      match upload_validation st file with
      | some d => (.httpError 400 d, 0)
      | none =>
        if element_type ∉ ["text", "table", "formula"] then
          (.httpError 400 "element_type必须是text、table或formula之一", 0)
        else if file.contents = [] then (.httpError 400 "文件内容为空", 0)
        else
          match st.openImage file.contents with
          | .error msg =>
            (.response { success := false, message := "解析失败: " ++ msg,
                         processing_time := some st.elapsed }, 0)
          | .ok pil_image =>
            match process_element_api m pil_image element_type with
            | (.ok results, calls) =>
              (.response { success := true, message := "元素解析成功",
                           results := some results,
                           processing_time := some st.elapsed }, calls)
            | (.error (.httpExc s d), calls) => (.httpError s d, calls)
            | (.error (.exc msg), calls) =>
              (.response { success := false, message := "解析失败: " ++ msg,
                           processing_time := some st.elapsed }, calls)

/-- The `GET /health` handler body: no dependency is declared on the route,
so its output is computed from the server state alone. -/
def health_check (st : ServerState) : HealthResponse :=
  { status := "healthy", model_loaded := st.model.isSome, timestamp := st.now }

/-- The `GET /health` route: the request's `Authorization` header reaches no
dependency (none is declared), so the handler ignores it. -/
def health_endpoint (st : ServerState)
    (authorization : Option (String × String)) : HealthResponse :=
  health_check st

/-! ### Error-shape helper lemmas for the endpoint layer -/

theorem base64_to_image_not_exc (decode : String → Except String Nat)
    (s : String) (msg : String) :
    base64_to_image decode s ≠ .error (.exc msg) := by
  unfold base64_to_image
  rcases decode s with e | img <;> simp

theorem process_page_api_error_shape (m : DolphinModel) (pil : Nat)
    (mbs : Int) (err : PyErr)
    (h : (process_page_api m pil mbs).1 = .error err) :
    ∃ msg, err = .httpExc 500 ("页面解析失败: " ++ msg) := by
  unfold process_page_api at h
  split at h
  · simp at h
    exact ⟨_, h.symm⟩
  · split at h
    · simp at h
      exact ⟨_, h.symm⟩
    · simp at h

theorem process_element_api_error_shape (m : DolphinModel) (pil : Nat)
    (etype : String) (err : PyErr)
    (h : (process_element_api m pil etype).1 = .error err) :
    ∃ msg, err = .httpExc 500 ("元素解析失败: " ++ msg) := by
  simp only [process_element_api] at h
  split at h
  · simp at h
    exact ⟨_, h.symm⟩
  · simp at h

/-! ### Endpoint reduction lemmas -/

theorem parse_page_reduce (st : ServerState) (b64 : String) (mbs : Int)
    (auth : Option (String × String)) (m : DolphinModel) (pil : Nat)
    (ha : verify_api_key st.api_keys auth = .ok true)
    (hm : st.model = some m) (hd : st.decode b64 = .ok pil) :
    parse_page st b64 mbs auth =
      (match process_page_api m pil mbs with
       | (.ok results, calls) =>
         (.response { success := true, message := "页面解析成功",
                      results := some results,
                      processing_time := some st.elapsed }, calls)
       | (.error (.httpExc s d), calls) => (.httpError s d, calls)
       | (.error (.exc msg), calls) =>
         (.response { success := false, message := "解析失败: " ++ msg,
                      processing_time := some st.elapsed }, calls)) := by
  have hb : base64_to_image st.decode b64 = .ok pil := by
    unfold base64_to_image; rw [hd]
  unfold parse_page
  simp only [ha, hm, hb]

theorem parse_element_reduce (st : ServerState) (b64 : String)
    (etype : String) (auth : Option (String × String)) (m : DolphinModel)
    (pil : Nat)
    (ha : verify_api_key st.api_keys auth = .ok true)
    (hm : st.model = some m) (hd : st.decode b64 = .ok pil)
    (he : etype ∈ ["text", "table", "formula"]) :
    parse_element st b64 etype auth =
      (match process_element_api m pil etype with
       | (.ok results, calls) =>
         (.response { success := true, message := "元素解析成功",
                      results := some results,
                      processing_time := some st.elapsed }, calls)
       | (.error (.httpExc s d), calls) => (.httpError s d, calls)
       | (.error (.exc msg), calls) =>
         (.response { success := false, message := "解析失败: " ++ msg,
                      processing_time := some st.elapsed }, calls)) := by
  have hb : base64_to_image st.decode b64 = .ok pil := by
    unfold base64_to_image; rw [hd]
  have hne : ¬ etype ∉ ["text", "table", "formula"] := not_not_intro he
  unfold parse_element
  simp only [ha, hm]
  rw [if_neg hne]
  simp only [hb]

/-! ### Concrete server states for witnesses and counterexamples -/

/-- A model whose layout/single chat raises the exception message "boom". -/
def failModel : DolphinModel :=
  { chatLayout := fun _ => .error "boom",
    chatBatch := fun _ _ _ => .ok [],
    chatSingle := fun _ _ => .error "boom",
    crop_margin := fun i => i }

/-- A server state with no API keys, a loaded failing model, and decoders
that always succeed. -/
def wstate : ServerState :=
  { api_keys := [], model := some failModel,
    decode := fun _ => .ok 0, openImage := fun _ => .ok 0,
    extAllowed := fun _ => true, now := 0, elapsed := 0 }

/-- Like `failModel` but raising a distinct message. -/
def cexModel : DolphinModel :=
  { chatLayout := fun _ => .error "cuda out of memory",
    chatBatch := fun _ _ _ => .ok [],
    chatSingle := fun _ _ => .error "cuda out of memory",
    crop_margin := fun i => i }

/-- A keyless server state holding `cexModel`. -/
def cexState : ServerState :=
  { api_keys := [], model := some cexModel,
    decode := fun _ => .ok 0, openImage := fun _ => .ok 0,
    extAllowed := fun _ => true, now := 0, elapsed := 0 }

/-- A valid upload file. -/
def wfile : UploadFileData :=
  { filename := "page.png", content_type := some "image/png",
    contents := [1, 2, 3] }

/-- Whether an endpoint outcome is a structured failure body
(`success=false` response), as claimed for parsing/inference exceptions. -/
def isFailureBody {α : Type} : EndpointResult α → Bool
  | .response r => !r.success
  | .httpError _ _ => false

/-! ### Claim theorems about the HTTP layer -/

/-- C1 (amended): for authorized requests on an initialized model whose image
decodes, any exception raised during parsing or inference is caught and
converted into an `HTTPException(500)` with a descriptive message, which the
endpoint re-raises as an HTTP 500 error; the structured `success=false` body
is never returned for such failures (every `response` outcome of these
endpoints has `success=true`). Input-validation failures raise immediately
(the decode failure case of `base64_to_image` is HTTP 400). -/
theorem parse_exceptions_yield_http_500
    (st : ServerState) (b64 : String) (mbs : Int) (etype : String)
    (auth : Option (String × String)) (m : DolphinModel) (pil : Nat)
    (hm : st.model = some m)
    (ha : verify_api_key st.api_keys auth = .ok true)
    (hd : st.decode b64 = .ok pil)
    (he : etype ∈ ["text", "table", "formula"]) :
    (∀ err, (process_page_api m pil mbs).1 = .error err →
      ∃ msg, err = .httpExc 500 ("页面解析失败: " ++ msg) ∧
        (parse_page st b64 mbs auth).1 =
          .httpError 500 ("页面解析失败: " ++ msg)) ∧
    (∀ err, (process_element_api m pil etype).1 = .error err →
      ∃ msg, err = .httpExc 500 ("元素解析失败: " ++ msg) ∧
        (parse_element st b64 etype auth).1 =
          .httpError 500 ("元素解析失败: " ++ msg)) ∧
    (∀ resp, (parse_page st b64 mbs auth).1 = .response resp →
      resp.success = true) ∧
    (∀ resp, (parse_element st b64 etype auth).1 = .response resp →
      resp.success = true) := by
  have hp := parse_page_reduce st b64 mbs auth m pil ha hm hd
  have hel := parse_element_reduce st b64 etype auth m pil ha hm hd he
  refine ⟨?_, ?_, ?_, ?_⟩
  · intro err herr
    obtain ⟨msg, hmsg⟩ := process_page_api_error_shape m pil mbs err herr
    subst hmsg
    refine ⟨msg, rfl, ?_⟩
    rw [hp]
    rcases hpr : process_page_api m pil mbs with ⟨r, calls⟩
    rw [hpr] at herr
    simp only at herr
    subst herr
    rfl
  · intro err herr
    obtain ⟨msg, hmsg⟩ := process_element_api_error_shape m pil etype err herr
    subst hmsg
    refine ⟨msg, rfl, ?_⟩
    rw [hel]
    rcases hpr : process_element_api m pil etype with ⟨r, calls⟩
    rw [hpr] at herr
    simp only at herr
    subst herr
    rfl
  · intro resp hresp
    rw [hp] at hresp
    rcases hpr : process_page_api m pil mbs with ⟨r, calls⟩
    rw [hpr] at hresp
    rcases r with err | res
    · obtain ⟨msg, hmsg⟩ := process_page_api_error_shape m pil mbs err
        (by rw [hpr])
      subst hmsg
      simp at hresp
    · simp at hresp
      rw [← hresp]
  · intro resp hresp
    rw [hel] at hresp
    rcases hpr : process_element_api m pil etype with ⟨r, calls⟩
    rw [hpr] at hresp
    rcases r with err | res
    · obtain ⟨msg, hmsg⟩ := process_element_api_error_shape m pil etype err
        (by rw [hpr])
      subst hmsg
      simp at hresp
    · simp at hresp
      rw [← hresp]

/-- Witness for C1 (amended) at a concrete state whose layout inference
raises "boom". -/
theorem parse_exceptions_yield_http_500_witness :
    ∃ msg, PyErr.httpExc 500 "页面解析失败: boom" =
        .httpExc 500 ("页面解析失败: " ++ msg) ∧
      (parse_page wstate "img" 4 (some ("Bearer", "k"))).1 =
        .httpError 500 ("页面解析失败: " ++ msg) :=
  (parse_exceptions_yield_http_500 wstate "img" 4 "text"
      (some ("Bearer", "k")) failModel 0 rfl rfl rfl (by decide)).1
    (.httpExc 500 "页面解析失败: boom") rfl

/-- C1 counterexample: an authorized page request whose image decodes but
whose inference raises receives a raw HTTP 500 error, not the structured
`success=false` failure body the claim asserts (the `except Exception`
branch is unreachable because the pipeline wraps every exception into an
`HTTPException` which the endpoint re-raises). -/
theorem parse_page_error_is_http_500_counterexample :
    (parse_page cexState "img" 4 (some ("Bearer", "k"))).1 =
      .httpError 500 "页面解析失败: cuda out of memory" ∧
    isFailureBody (parse_page cexState "img" 4 (some ("Bearer", "k"))).1 =
      false := by
  exact ⟨rfl, rfl⟩

/-- C2 (code bug): with the key set empty — auth supposedly disabled — a
request carrying no `Authorization` header is rejected with 403 "Not
authenticated" by the `HTTPBearer` security dependency before
`verify_api_key`'s empty-set bypass can run, both at the gate and at the
endpoint. -/
theorem empty_keys_no_header_rejected :
    verify_api_key [] none = .error (.httpExc 403 "Not authenticated") ∧
    wstate.api_keys = [] ∧
    (parse_page wstate "img" 1 none).1 =
      .httpError 403 "Not authenticated" ∧
    (parse_element wstate "img" "text" none).1 =
      .httpError 403 "Not authenticated" := by
  exact ⟨rfl, rfl, rfl, rfl⟩

/-- C3 counterexample: with keys configured, a request with a missing bearer
token fails with 403 "Not authenticated" (raised by the security scheme),
not with the 401 unauthorized error the claim asserts. -/
theorem missing_token_403_not_401 :
    verify_api_key ["secret"] none =
      .error (.httpExc 403 "Not authenticated") ∧
    verify_api_key ["secret"] none ≠
      .error (.httpExc 401 "无效的API Key") := by
  refine ⟨rfl, by simp [verify_api_key, HTTPBearer_dependency]⟩

/-- The `HTTPBearer` dependency accepts a well-formed bearer header. -/
theorem HTTPBearer_bearer_ok (tok : String) (ht : tok ≠ "") :
    HTTPBearer_dependency (some ("Bearer", tok)) = .ok ("Bearer", tok) := by
  have h1 : ¬ (("Bearer" : String) = "" ∨ tok = "") := by
    rintro (h | h)
    · exact absurd h (by decide)
    · exact ht h
  simp only [HTTPBearer_dependency]
  rw [if_neg h1, if_neg (by decide : ¬ (lowerString "Bearer" ≠ "bearer"))]

/-- C3 (amended): with a non-empty key set, a request with no `Authorization`
header fails with 403 from the security scheme; a presented non-empty bearer
token that is not a member of the key set fails with 401; a member token
passes the gate. -/
theorem auth_gate_behaviour (keys : List String) (tok : String)
    (hk : keys ≠ []) (ht : tok ≠ "") :
    verify_api_key keys none = .error (.httpExc 403 "Not authenticated") ∧
    (tok ∉ keys →
      verify_api_key keys (some ("Bearer", tok)) =
        .error (.httpExc 401 "无效的API Key")) ∧
    (tok ∈ keys →
      verify_api_key keys (some ("Bearer", tok)) = .ok true) := by
  have hb := HTTPBearer_bearer_ok tok ht
  refine ⟨rfl, ?_, ?_⟩
  · intro hmem
    unfold verify_api_key
    simp only [hb]
    rw [if_neg hk, if_pos hmem]
  · intro hmem
    unfold verify_api_key
    simp only [hb]
    rw [if_neg hk, if_neg (not_not_intro hmem)]

/-- Witness for C3 (amended): a member token passes, a non-member fails 401.
-/
theorem auth_gate_behaviour_witness :
    verify_api_key ["secret"] (some ("Bearer", "secret")) = .ok true ∧
    verify_api_key ["secret"] (some ("Bearer", "wrong")) =
      .error (.httpExc 401 "无效的API Key") :=
  ⟨(auth_gate_behaviour ["secret"] "secret" (by decide) (by decide)).2.2
      (by decide),
   (auth_gate_behaviour ["secret"] "wrong" (by decide) (by decide)).2.1
      (by decide)⟩

/-- C9: an authorized request on an initialized model whose `element_type`
is not one of text/table/formula is rejected with HTTP 400, and the model's
chat is never invoked (the recorded chat-call count is 0), on both
`/parse_element` and `/upload_parse_element`. -/
theorem invalid_element_type_rejected_before_chat
    (st : ServerState) (m : DolphinModel) (b64 : String) (etype : String)
    (file : UploadFileData) (auth : Option (String × String))
    (hm : st.model = some m)
    (ha : verify_api_key st.api_keys auth = .ok true)
    (he : etype ∉ ["text", "table", "formula"]) :
    parse_element st b64 etype auth =
      (.httpError 400 "element_type必须是text、table或formula之一", 0) ∧
    ∃ d, upload_parse_element st file etype auth = (.httpError 400 d, 0) := by
  constructor
  · unfold parse_element
    simp only [ha, hm]
    rw [if_pos he]
  · unfold upload_parse_element
    simp only [ha, hm]
    rcases hv : upload_validation st file with _ | d
    · refine ⟨"element_type必须是text、table或formula之一", ?_⟩
      simp [he]
    · exact ⟨d, rfl⟩

/-- Witness for C9 at the concrete keyless state and `element_type`
"diagram". -/
theorem invalid_element_type_rejected_before_chat_witness :
    parse_element wstate "img" "diagram" (some ("Bearer", "k")) =
      (.httpError 400 "element_type必须是text、table或formula之一", 0) ∧
    ∃ d, upload_parse_element wstate wfile "diagram" (some ("Bearer", "k")) =
      (.httpError 400 d, 0) :=
  invalid_element_type_rejected_before_chat wstate failModel "img" "diagram"
    wfile (some ("Bearer", "k")) rfl rfl (by decide)

/-- C10: the `GET /health` route performs no API-key check: its output is
the same for every `Authorization` header, always equals
`{status := "healthy", model_loaded, timestamp}`, and `model_loaded` is true
exactly when the model global has been initialized. -/
theorem health_no_auth_check (st : ServerState)
    (auth auth' : Option (String × String)) :
    health_endpoint st auth =
      { status := "healthy", model_loaded := st.model.isSome,
        timestamp := st.now } ∧
    health_endpoint st auth = health_endpoint st auth' ∧
    ((health_endpoint st auth).model_loaded = true ↔ st.model ≠ none) := by
  refine ⟨rfl, rfl, ?_⟩
  simp [health_endpoint, health_check, Option.isSome_iff_ne_none]

end Dolphin
